import Mathlib

/-!
Verification development for the rust-toast notification utility.

The Rust sources are shallowly embedded: enums become inductives, structs
become structures, pure string manipulation becomes functions on `String`
(with a `List Char` kernel mirroring `str::replace` on a `char` pattern),
and environment facts that Rust reads at compile time or from the
filesystem (the compiled target OS, the contents of the kernel-version
pseudo-file) become explicit parameters. The side-effecting parts of the
backends (spawning `osascript` or `powershell.exe`) are embedded up to the
script string they construct, which is the part the specification
constrains.
-/

namespace RustToast

/-- Platform enum from src/platform.rs. -/
inductive Platform
  | Linux
  | Wsl
  | MacOs
  | Windows
  | Unknown
deriving DecidableEq, BEq

/-- UrgencyLevel enum from src/notifier/mod.rs; the Rust default is Normal. -/
inductive UrgencyLevel
  | Low
  | Normal
  | Critical
deriving DecidableEq

/-- Notification struct from src/notifier/mod.rs. -/
structure Notification where
  title : String
  message : String
  timeout : Nat
  icon : String
  urgency : UrgencyLevel
  subtitle : String
  sound : String
  backend_override : Option Platform
deriving DecidableEq

/-- NotificationBuilder struct from src/notifier/mod.rs: every field optional,
Rust's `Default` derive makes them all `None`. -/
structure NotificationBuilder where
  title : Option String := none
  message : Option String := none
  timeout : Option Nat := none
  icon : Option String := none
  urgency : Option UrgencyLevel := none
  subtitle : Option String := none
  sound : Option String := none
  backend : Option Platform := none
deriving DecidableEq

/-- `NotificationBuilder::new`, which is `Self::default()`. -/
def NotificationBuilder.new : NotificationBuilder := {}

/-- Fluent setter `NotificationBuilder::title` (named setTitle because the
field projection already uses the Rust method name). -/
def NotificationBuilder.setTitle (b : NotificationBuilder) (v : String) : NotificationBuilder :=
  { b with title := some v }

/-- Fluent setter `NotificationBuilder::message`. -/
def NotificationBuilder.setMessage (b : NotificationBuilder) (v : String) : NotificationBuilder :=
  { b with message := some v }

/-- Fluent setter `NotificationBuilder::timeout`. -/
def NotificationBuilder.setTimeout (b : NotificationBuilder) (v : Nat) : NotificationBuilder :=
  { b with timeout := some v }

/-- Fluent setter `NotificationBuilder::icon`. -/
def NotificationBuilder.setIcon (b : NotificationBuilder) (v : String) : NotificationBuilder :=
  { b with icon := some v }

/-- Fluent setter `NotificationBuilder::urgency`. -/
def NotificationBuilder.setUrgency (b : NotificationBuilder) (v : UrgencyLevel) : NotificationBuilder :=
  { b with urgency := some v }

/-- Fluent setter `NotificationBuilder::subtitle`. -/
def NotificationBuilder.setSubtitle (b : NotificationBuilder) (v : String) : NotificationBuilder :=
  { b with subtitle := some v }

/-- Fluent setter `NotificationBuilder::sound`. -/
def NotificationBuilder.setSound (b : NotificationBuilder) (v : String) : NotificationBuilder :=
  { b with sound := some v }

/-- Fluent setter `NotificationBuilder::backend`. -/
def NotificationBuilder.setBackend (b : NotificationBuilder) (v : Platform) : NotificationBuilder :=
  { b with backend := some v }

/-- `NotificationBuilder::build`: fill every unset field with its default. -/
def NotificationBuilder.build (b : NotificationBuilder) : Notification :=
  { title := b.title.getD "Notification"
    message := b.message.getD ""
    timeout := b.timeout.getD 5000
    icon := b.icon.getD "dialog-information"
    urgency := b.urgency.getD UrgencyLevel.Normal
    subtitle := b.subtitle.getD ""
    sound := b.sound.getD "default"
    backend_override := b.backend }

/-- Rust's `str::replace` with a `char` pattern: every occurrence of `c`
is replaced by the string `r`, scanning left to right. -/
def replaceChar (c : Char) (r : List Char) : List Char → List Char
  | [] => []
  | x :: xs => (if x = c then r else [x]) ++ replaceChar c r xs

/-- `escape_applescript` from src/notifier/macos.rs on the character list:
`s.replace(backslash, double-backslash).replace(quote, backslash-quote)`. -/
def escapeAppleList (s : List Char) : List Char :=
  replaceChar '"' ['\\', '"'] (replaceChar '\\' ['\\', '\\'] s)

/-- `escape_applescript` from src/notifier/macos.rs, on `String`. -/
def escape_applescript (s : String) : String :=
  String.mk (escapeAppleList s.data)

/-- `escape_powershell` from src/notifier/windows.rs on the character list:
`s.replace(single-quote, two-single-quotes)`. -/
def escapePsList (s : List Char) : List Char :=
  replaceChar '\x27' ['\x27', '\x27'] s

/-- `escape_powershell` from src/notifier/windows.rs, on `String`. -/
def escape_powershell (s : String) : String :=
  String.mk (escapePsList s.data)

/-- The one-pass character expansion that `escape_applescript` should agree
with: backslash to double backslash, quote to backslash-quote, anything
else unchanged. -/
def appleEsc (c : Char) : List Char :=
  if c = '\\' then ['\\', '\\'] else if c = '"' then ['\\', '"'] else [c]

/-- The one-pass character expansion for the PowerShell escape. -/
def psEsc (c : Char) : List Char :=
  if c = '\x27' then ['\x27', '\x27'] else [c]

/-- The AppleScript source that `MacOsNotifier::send` (src/notifier/macos.rs)
builds and hands to `osascript -e`: title, message and subtitle are run
through `escape_applescript`; the subtitle clause is appended only when the
escaped subtitle is non-empty; the sound clause is always appended and
interpolates `notification.sound` as the source does. -/
def macosScript (n : Notification) : String :=
  let title := escape_applescript n.title
  let message := escape_applescript n.message
  let subtitle := escape_applescript n.subtitle
  let script := "display notification \"" ++ message ++ "\" with title \"" ++ title ++ "\""
  let script := if subtitle.isEmpty then script
    else script ++ " subtitle \"" ++ subtitle ++ "\""
  script ++ " sound name \"" ++ n.sound ++ "\""

/-- The AppleScript source as section 4.2 of the specification words it:
identical to `macosScript` except that every interpolated string, the sound
name included, is first run through `escape_applescript`. This is the
spec-side definition, kept only to compare against `macosScript`. -/
def macosScriptSpec (n : Notification) : String :=
  let title := escape_applescript n.title
  let message := escape_applescript n.message
  let subtitle := escape_applescript n.subtitle
  let sound := escape_applescript n.sound
  let script := "display notification \"" ++ message ++ "\" with title \"" ++ title ++ "\""
  let script := if subtitle.isEmpty then script
    else script ++ " subtitle \"" ++ subtitle ++ "\""
  script ++ " sound name \"" ++ sound ++ "\""

/-- A Notification whose sound field carries a double quote, as the CLI
permits via `--sound`. -/
def soundInjection : Notification :=
  { title := "Test"
    message := "Hello"
    timeout := 1000
    icon := "dialog-information"
    urgency := UrgencyLevel.Critical
    subtitle := ""
    sound := "Glass\" with title \"pwn"
    backend_override := some Platform.MacOs }

/-- The constant PowerShell template of `WindowsNotifier::send`
(src/notifier/windows.rs), i.e. the `format!` raw string with its three
placeholders abstracted: the balloon title, the balloon text, and the
timeout in milliseconds. -/
def psTemplate (title message : String) (timeout : Nat) : String :=
  "\n            Add-Type -AssemblyName System.Windows.Forms\n            $balloon = New-Object System.Windows.Forms.NotifyIcon\n            $balloon.Icon = [System.Drawing.SystemIcons]::Information\n            $balloon.BalloonTipTitle = \x27" ++ title
    ++ "\x27\n            $balloon.BalloonTipText = \x27" ++ message
    ++ "\x27\n            $balloon.Visible = $true\n            $balloon.ShowBalloonTip("
    ++ toString timeout
    ++ ")\n            Start-Sleep -Milliseconds 100\n            $balloon.Dispose()\n            "

/-- The PowerShell source that `WindowsNotifier::send` builds: title and
message are run through `escape_powershell` and interpolated into the
template together with the timeout. -/
def windowsScript (n : Notification) : String :=
  psTemplate (escape_powershell n.title) (escape_powershell n.message) n.timeout

/-- Substring test on character lists, modelling Rust's `str::contains`
with a string pattern. -/
def containsSub : List Char → List Char → Bool
  | [], needle => needle.isEmpty
  | x :: t, needle => needle.isPrefixOf (x :: t) || containsSub t needle

/-- `is_wsl` from src/platform.rs, with the contents of /proc/version made
an explicit parameter: `none` models an unreadable file, in which case the
Rust `unwrap_or(false)` yields false. -/
def is_wsl (procVersion : Option String) : Bool :=
  match procVersion with
  | some content =>
      let lower := content.data.map Char.toLower
      containsSub lower "microsoft".data || containsSub lower "wsl".data
  | none => false

/-- `detect_platform` from src/platform.rs, with `std::env::consts::OS` and
the /proc/version contents made explicit parameters. -/
def detect_platform (os : String) (procVersion : Option String) : Platform :=
  if os = "macos" then Platform.MacOs
  else if os = "windows" then Platform.Windows
  else if os = "linux" then
    (if is_wsl procVersion then Platform.Wsl else Platform.Linux)
  else Platform.Unknown

/-- The compiled target OS, which the Rust `cfg!` macros inspect. -/
inductive TargetOs
  | linux
  | macos
  | windows
  | other
deriving DecidableEq

/-- The three concrete notifier backends (LinuxNotifier, WindowsNotifier,
MacOsNotifier), collapsed into one inductive standing in for
`Box<dyn Notifier>`. -/
inductive Backend
  | linux
  | windows
  | macos
deriving DecidableEq

/-- `is_available` of each backend: LinuxNotifier is available exactly when
compiled for Linux; WindowsNotifier when compiled for Windows or Linux
(WSL shells out to the host); MacOsNotifier exactly on macOS. -/
def Backend.is_available : Backend → TargetOs → Bool
  | Backend.linux, TargetOs.linux => true
  | Backend.linux, _ => false
  | Backend.windows, TargetOs.windows => true
  | Backend.windows, TargetOs.linux => true
  | Backend.windows, _ => false
  | Backend.macos, TargetOs.macos => true
  | Backend.macos, _ => false

/-- `backend_name` of each backend; the LinuxNotifier stub compiled for a
non-Linux target reports "Linux (unavailable)". -/
def Backend.backend_name : Backend → TargetOs → String
  | Backend.linux, TargetOs.linux => "Linux (D-Bus)"
  | Backend.linux, _ => "Linux (unavailable)"
  | Backend.windows, _ => "Windows (PowerShell)"
  | Backend.macos, _ => "macOS (osascript)"

/-- NotificationError from src/error.rs; the io::Error payload of
CommandExecution is embedded as its message string. -/
inductive NotificationError
  | SendFailed (backend : String) (reason : String)
  | UnsupportedPlatform (detail : String)
  | CommandExecution (err : String)
  | Other (msg : String)
deriving DecidableEq

/-- The platform-to-backend arms of the `match` in `select_notifier`
(src/notifier/mod.rs); `none` is the Unknown arm that returns early. -/
def backendFor : Platform → Option Backend
  | Platform.Linux => some Backend.linux
  | Platform.Wsl => some Backend.windows
  | Platform.Windows => some Backend.windows
  | Platform.MacOs => some Backend.macos
  | Platform.Unknown => none

/-- The error text of the Unknown arm of `select_notifier`. -/
def unknownPlatformMsg : String :=
  "Unknown platform. Use --backend to specify manually."

/-- The error text of the availability check of `select_notifier`. -/
def unavailableMsg (b : Backend) (t : TargetOs) : String :=
  b.backend_name t ++ " notifier is not available on this platform"

/-- `select_notifier` from src/notifier/mod.rs: resolve the platform as the
override when present else the detected platform, map it to a backend
(failing immediately on Unknown), then check `is_available`. The detected
platform and the compiled target are explicit parameters. -/
def select_notifier (detected : Platform) (t : TargetOs) (n : Notification) :
    Except NotificationError Backend :=
  let platform := n.backend_override.getD detected
  match backendFor platform with
  | none => Except.error (NotificationError.UnsupportedPlatform unknownPlatformMsg)
  | some b =>
      if b.is_available t then Except.ok b
      else Except.error (NotificationError.UnsupportedPlatform (unavailableMsg b t))

/-- CLI urgency enum from src/cli.rs. -/
inductive CliUrgencyLevel
  | Low
  | Normal
  | Critical
deriving DecidableEq

/-- CLI backend enum from src/cli.rs: only three choices, no Unknown and no
Wsl. -/
inductive CliBackend
  | Linux
  | Windows
  | Macos
deriving DecidableEq

/-- `From<CliUrgencyLevel> for UrgencyLevel` from src/cli.rs. -/
def UrgencyLevel.ofCli : CliUrgencyLevel → UrgencyLevel
  | CliUrgencyLevel.Low => UrgencyLevel.Low
  | CliUrgencyLevel.Normal => UrgencyLevel.Normal
  | CliUrgencyLevel.Critical => UrgencyLevel.Critical

/-- `From<CliBackend> for Platform` from src/cli.rs. -/
def Platform.ofCliBackend : CliBackend → Platform
  | CliBackend.Linux => Platform.Linux
  | CliBackend.Windows => Platform.Windows
  | CliBackend.Macos => Platform.MacOs

/-- The parsed CLI arguments (Args struct from src/cli.rs). -/
structure Args where
  title : String
  message : String
  timeout : Nat
  icon : String
  urgency : CliUrgencyLevel
  subtitle : String
  sound : String
  backend : Option CliBackend
deriving DecidableEq

/-- `Args::into_builder` from src/cli.rs: chain every setter, then set the
backend override only when the CLI supplied one. -/
def Args.into_builder (a : Args) : NotificationBuilder :=
  let builder :=
    (((((((NotificationBuilder.new.setTitle a.title).setMessage a.message).setTimeout
      a.timeout).setIcon a.icon).setUrgency (UrgencyLevel.ofCli a.urgency)).setSubtitle
      a.subtitle).setSound a.sound)
  match a.backend with
  | some b => builder.setBackend (Platform.ofCliBackend b)
  | none => builder

lemma replaceChar_append (c : Char) (r a b : List Char) :
    replaceChar c r (a ++ b) = replaceChar c r a ++ replaceChar c r b := by
  induction a with
  | nil => simp [replaceChar]
  | cons x xs ih => simp [replaceChar, ih]

lemma escapeAppleList_eq_bind (s : List Char) :
    escapeAppleList s = s.flatMap appleEsc := by
  induction s with
  | nil => rfl
  | cons x xs ih =>
    by_cases h1 : x = '\\'
    · subst h1
      simp only [escapeAppleList, replaceChar, if_pos rfl, List.flatMap_cons, replaceChar_append]
        at ih ⊢
      simp [appleEsc, replaceChar, ih]
    · by_cases h2 : x = '"'
      · subst h2
        simp only [escapeAppleList, replaceChar, if_neg h1, List.flatMap_cons, replaceChar_append]
          at ih ⊢
        simp [appleEsc, replaceChar, ih]
      · simp only [escapeAppleList, replaceChar, if_neg h1, List.flatMap_cons, replaceChar_append]
          at ih ⊢
        simp [appleEsc, replaceChar, ih, h1, h2]

lemma escapePsList_eq_bind (s : List Char) :
    escapePsList s = s.flatMap psEsc := by
  induction s with
  | nil => rfl
  | cons x xs ih =>
    simp only [escapePsList] at ih
    by_cases h : x = '\x27'
    · subst h
      simp [escapePsList, replaceChar, List.flatMap_cons, psEsc, ih]
    · simp [escapePsList, replaceChar, List.flatMap_cons, psEsc, ih, h]

lemma quotes_escaped_aux (s : List Char) :
    ∀ i : Nat, (s.flatMap appleEsc)[i]? = some '"' →
      ∃ j, i = j + 1 ∧ (s.flatMap appleEsc)[j]? = some '\\' := by
  induction s with
  | nil =>
    intro i h
    simp at h
  | cons x xs ih =>
    intro i h
    rw [List.flatMap_cons] at h ⊢
    by_cases h1 : x = '\\'
    · subst h1
      rw [show appleEsc '\\' = ['\\', '\\'] from rfl] at h ⊢
      simp only [List.cons_append, List.nil_append] at h ⊢
      match i, h with
      | 0, h => simp at h
      | 1, h => simp at h
      | (k + 2), h =>
        simp only [List.getElem?_cons_succ] at h
        obtain ⟨j, hj1, hj2⟩ := ih k h
        exact ⟨j + 2, by omega, by simpa using hj2⟩
    · by_cases h2 : x = '"'
      · subst h2
        rw [show appleEsc '"' = ['\\', '"'] from rfl] at h ⊢
        simp only [List.cons_append, List.nil_append] at h ⊢
        match i, h with
        | 0, h => simp at h
        | 1, h => exact ⟨0, rfl, by simp⟩
        | (k + 2), h =>
          simp only [List.getElem?_cons_succ] at h
          obtain ⟨j, hj1, hj2⟩ := ih k h
          exact ⟨j + 2, by omega, by simpa using hj2⟩
      · rw [show appleEsc x = [x] by simp [appleEsc, h1, h2]] at h ⊢
        simp only [List.cons_append, List.nil_append] at h ⊢
        match i, h with
        | 0, h =>
          simp only [List.getElem?_cons_zero, Option.some.injEq] at h
          exact absurd h h2
        | (k + 1), h =>
          simp only [List.getElem?_cons_succ] at h
          obtain ⟨j, hj1, hj2⟩ := ih k h
          exact ⟨j + 1, by omega, by simpa using hj2⟩

/-- Claim C5: `Builder::new().build()` is total and yields exactly the
documented defaults: title "Notification", message empty, timeout 5000,
urgency Normal, icon "dialog-information", sound "default", subtitle
empty, and no backend override. -/
theorem builder_defaults :
    NotificationBuilder.new.build =
      { title := "Notification"
        message := ""
        timeout := 5000
        icon := "dialog-information"
        urgency := UrgencyLevel.Normal
        subtitle := ""
        sound := "default"
        backend_override := none } := rfl

/-- Claim C3: the AppleScript escape does backslash-escaping before
quote-escaping, so it acts as the deterministic one-pass map sending each
backslash to a double backslash and each double-quote to
backslash-double-quote with no re-escaping, and it produces the three
documented example outputs. -/
theorem escape_applescript_order :
    (∀ s : List Char, escapeAppleList s = s.flatMap appleEsc) ∧
    escape_applescript "Hello \"World\"" = "Hello \\\"World\\\"" ∧
    escape_applescript "path\\to\\file" = "path\\\\to\\\\file" ∧
    escape_applescript "Say \"Hi\\\" there" = "Say \\\"Hi\\\\\\\" there" :=
  ⟨escapeAppleList_eq_bind, by decide, by decide, by decide⟩

/-- Claim C1 (violated by the code): evaluating `MacOsNotifier::send`'s
script construction at a Notification whose sound field contains a double
quote shows the sound name interpolated raw: the generated script differs
from the spec-side script that escapes every interpolated string, and its
sound clause carries the unescaped quote verbatim. -/
theorem macos_send_sound_unescaped :
    macosScript soundInjection =
      "display notification \"Hello\" with title \"Test\" sound name \"Glass\" with title \"pwn\"" ∧
    (macosScript soundInjection == macosScriptSpec soundInjection) = false :=
  ⟨by decide, by decide⟩

/-- Claim C6: the PowerShell escape doubles every single quote and changes
nothing else (it is the one-pass map `psEsc` over the characters), it
produces the two documented example outputs, and `WindowsNotifier::send`
interpolates exactly `escape_powershell` of the title and of the message
into the script template. -/
theorem escape_powershell_doubles_quotes :
    (∀ s : List Char, escapePsList s = s.flatMap psEsc) ∧
    escape_powershell "It\x27s working" = "It\x27\x27s working" ∧
    escape_powershell "\x27Hello\x27 \x27World\x27" = "\x27\x27Hello\x27\x27 \x27\x27World\x27\x27" ∧
    (∀ n : Notification,
      windowsScript n = psTemplate (escape_powershell n.title) (escape_powershell n.message) n.timeout) :=
  ⟨escapePsList_eq_bind, by decide, by decide, fun _ => rfl⟩

/-- Claim C9: in the output of `escape_applescript`, every double-quote
character is immediately preceded by a backslash, so an escaped value can
never terminate the surrounding double-quoted AppleScript literal early. -/
theorem escape_applescript_quotes_escaped :
    ∀ (s : List Char) (i : Nat), (escapeAppleList s)[i]? = some '"' →
      ∃ j, i = j + 1 ∧ (escapeAppleList s)[j]? = some '\\' := by
  intro s i h
  rw [escapeAppleList_eq_bind] at h ⊢
  exact quotes_escaped_aux s i h

/-- Witness for C9 at the concrete input "a\"": the escaped output is
['a', '\\', '"'], whose quote sits at index 2, and the theorem yields the
preceding backslash. -/
theorem escape_applescript_quotes_escaped_witness :
    (escapeAppleList ['a', '"'])[2]? = some '"' ∧
    ∃ j, 2 = j + 1 ∧ (escapeAppleList ['a', '"'])[j]? = some '\\' :=
  ⟨by decide, escape_applescript_quotes_escaped ['a', '"'] 2 (by decide)⟩

/-- Claim C7: platform detection is total and never propagates an error:
on a Linux target it reports Wsl exactly when the kernel-version
pseudo-file is readable and its lowercased contents contain "microsoft" or
"wsl"; in every other case, the unreadable-file case included, it reports
Linux. -/
theorem detect_platform_linux_total :
    (∀ content : String,
      detect_platform "linux" (some content) =
        if containsSub (content.data.map Char.toLower) "microsoft".data
            || containsSub (content.data.map Char.toLower) "wsl".data
        then Platform.Wsl else Platform.Linux) ∧
    detect_platform "linux" none = Platform.Linux ∧
    (∀ procVersion : Option String,
      detect_platform "linux" procVersion = Platform.Wsl ∨
      detect_platform "linux" procVersion = Platform.Linux) := by
  refine ⟨fun content => ?_, rfl, fun procVersion => ?_⟩
  · simp [detect_platform, is_wsl]
  · by_cases h : is_wsl procVersion = true
    · left
      simp [detect_platform, h]
    · right
      simp [detect_platform, h]

/-- Claim C2: `select_notifier` resolves the platform as the override when
present else the detected platform, maps Linux to the Linux backend, Wsl
and Windows to the Windows backend, MacOs to the macOS backend, and
Unknown to an immediate UnsupportedPlatform error; a selected backend that
is not available yields an UnsupportedPlatform error naming it. In
particular an override of MacOs always selects the macOS backend whatever
was detected, and no override plus a detected Unknown platform fails with
UnsupportedPlatform. -/
theorem select_notifier_dispatch :
    (∀ (n : Notification) (d : Platform) (t : TargetOs),
      select_notifier d t n =
        match n.backend_override.getD d with
        | Platform.Unknown =>
            Except.error (NotificationError.UnsupportedPlatform unknownPlatformMsg)
        | Platform.Linux =>
            if Backend.linux.is_available t then Except.ok Backend.linux
            else Except.error
              (NotificationError.UnsupportedPlatform (unavailableMsg Backend.linux t))
        | Platform.Wsl =>
            if Backend.windows.is_available t then Except.ok Backend.windows
            else Except.error
              (NotificationError.UnsupportedPlatform (unavailableMsg Backend.windows t))
        | Platform.Windows =>
            if Backend.windows.is_available t then Except.ok Backend.windows
            else Except.error
              (NotificationError.UnsupportedPlatform (unavailableMsg Backend.windows t))
        | Platform.MacOs =>
            if Backend.macos.is_available t then Except.ok Backend.macos
            else Except.error
              (NotificationError.UnsupportedPlatform (unavailableMsg Backend.macos t))) ∧
    (∀ (n : Notification) (d : Platform) (t : TargetOs),
      select_notifier d t { n with backend_override := some Platform.MacOs } =
        if Backend.macos.is_available t then Except.ok Backend.macos
        else Except.error
          (NotificationError.UnsupportedPlatform (unavailableMsg Backend.macos t))) ∧
    (∀ (n : Notification) (t : TargetOs),
      select_notifier Platform.Unknown t { n with backend_override := none } =
        Except.error (NotificationError.UnsupportedPlatform unknownPlatformMsg)) := by
  refine ⟨fun n d t => ?_, fun n d t => rfl, fun n t => rfl⟩
  cases h : n.backend_override.getD d <;> simp [select_notifier, backendFor, h]

/-- Claim C10: a Notification carrying an explicit Unknown override, which
the public builder permits, makes `select_notifier` return the Unknown
UnsupportedPlatform error for every detected platform and every compiled
target, before any availability check could matter. -/
theorem dispatch_unknown_override :
    (∀ (n : Notification) (d : Platform) (t : TargetOs),
      select_notifier d t { n with backend_override := some Platform.Unknown } =
        Except.error (NotificationError.UnsupportedPlatform unknownPlatformMsg)) ∧
    (∀ b : NotificationBuilder,
      ((b.setBackend Platform.Unknown).build).backend_override = some Platform.Unknown) :=
  ⟨fun _ _ _ => rfl, fun _ => rfl⟩

/-- Counterexample to claim C4 as stated: the public builder's backend
setter accepts Platform.Unknown, and the built Notification then carries
backend_override = some Unknown. -/
theorem builder_unknown_override_counterexample :
    ((NotificationBuilder.new.setBackend Platform.Unknown).build).backend_override =
      some Platform.Unknown := by decide

/-- Claim C4 as amended: a backend override originating from the CLI is
never Unknown — the CLI conversion maps its three choices to Linux,
Windows and MacOs only, and any Notification built through
`Args::into_builder` has an override that is not Unknown; the library
builder itself, however, accepts any Platform. -/
theorem cli_backend_never_unknown :
    (∀ cb : CliBackend, (Platform.ofCliBackend cb == Platform.Unknown) = false) ∧
    (∀ a : Args,
      (((a.into_builder).build).backend_override.all
        (fun p => !(p == Platform.Unknown))) = true) := by
  refine ⟨fun cb => by cases cb <;> rfl, fun a => ?_⟩
  cases hb : a.backend with
  | none =>
    simp only [Args.into_builder, hb]
    rfl
  | some cb =>
    cases cb <;> simp only [Args.into_builder, hb] <;> rfl

/-- Claim C8: every fluent setter updates exactly its own field and leaves
the seven others untouched, and consequently building after a setter
changes only the corresponding Notification field relative to building the
original state. -/
theorem builder_setter_frame :
    ∀ (b : NotificationBuilder) (s : String) (x : Nat) (u : UrgencyLevel) (p : Platform),
      ((b.setTitle s).title = some s ∧ (b.setTitle s).message = b.message ∧
        (b.setTitle s).timeout = b.timeout ∧ (b.setTitle s).icon = b.icon ∧
        (b.setTitle s).urgency = b.urgency ∧ (b.setTitle s).subtitle = b.subtitle ∧
        (b.setTitle s).sound = b.sound ∧ (b.setTitle s).backend = b.backend) ∧
      ((b.setMessage s).message = some s ∧ (b.setMessage s).title = b.title ∧
        (b.setMessage s).timeout = b.timeout ∧ (b.setMessage s).icon = b.icon ∧
        (b.setMessage s).urgency = b.urgency ∧ (b.setMessage s).subtitle = b.subtitle ∧
        (b.setMessage s).sound = b.sound ∧ (b.setMessage s).backend = b.backend) ∧
      ((b.setTimeout x).timeout = some x ∧ (b.setTimeout x).title = b.title ∧
        (b.setTimeout x).message = b.message ∧ (b.setTimeout x).icon = b.icon ∧
        (b.setTimeout x).urgency = b.urgency ∧ (b.setTimeout x).subtitle = b.subtitle ∧
        (b.setTimeout x).sound = b.sound ∧ (b.setTimeout x).backend = b.backend) ∧
      ((b.setIcon s).icon = some s ∧ (b.setIcon s).title = b.title ∧
        (b.setIcon s).message = b.message ∧ (b.setIcon s).timeout = b.timeout ∧
        (b.setIcon s).urgency = b.urgency ∧ (b.setIcon s).subtitle = b.subtitle ∧
        (b.setIcon s).sound = b.sound ∧ (b.setIcon s).backend = b.backend) ∧
      ((b.setUrgency u).urgency = some u ∧ (b.setUrgency u).title = b.title ∧
        (b.setUrgency u).message = b.message ∧ (b.setUrgency u).timeout = b.timeout ∧
        (b.setUrgency u).icon = b.icon ∧ (b.setUrgency u).subtitle = b.subtitle ∧
        (b.setUrgency u).sound = b.sound ∧ (b.setUrgency u).backend = b.backend) ∧
      ((b.setSubtitle s).subtitle = some s ∧ (b.setSubtitle s).title = b.title ∧
        (b.setSubtitle s).message = b.message ∧ (b.setSubtitle s).timeout = b.timeout ∧
        (b.setSubtitle s).icon = b.icon ∧ (b.setSubtitle s).urgency = b.urgency ∧
        (b.setSubtitle s).sound = b.sound ∧ (b.setSubtitle s).backend = b.backend) ∧
      ((b.setSound s).sound = some s ∧ (b.setSound s).title = b.title ∧
        (b.setSound s).message = b.message ∧ (b.setSound s).timeout = b.timeout ∧
        (b.setSound s).icon = b.icon ∧ (b.setSound s).urgency = b.urgency ∧
        (b.setSound s).subtitle = b.subtitle ∧ (b.setSound s).backend = b.backend) ∧
      ((b.setBackend p).backend = some p ∧ (b.setBackend p).title = b.title ∧
        (b.setBackend p).message = b.message ∧ (b.setBackend p).timeout = b.timeout ∧
        (b.setBackend p).icon = b.icon ∧ (b.setBackend p).urgency = b.urgency ∧
        (b.setBackend p).subtitle = b.subtitle ∧ (b.setBackend p).sound = b.sound) ∧
      ((b.setTitle s).build = { b.build with title := s } ∧
        (b.setMessage s).build = { b.build with message := s } ∧
        (b.setTimeout x).build = { b.build with timeout := x } ∧
        (b.setIcon s).build = { b.build with icon := s } ∧
        (b.setUrgency u).build = { b.build with urgency := u } ∧
        (b.setSubtitle s).build = { b.build with subtitle := s } ∧
        (b.setSound s).build = { b.build with sound := s } ∧
        (b.setBackend p).build = { b.build with backend_override := some p }) := by
  intro b s x u p
  cases b
  exact ⟨⟨rfl, rfl, rfl, rfl, rfl, rfl, rfl, rfl⟩, ⟨rfl, rfl, rfl, rfl, rfl, rfl, rfl, rfl⟩,
    ⟨rfl, rfl, rfl, rfl, rfl, rfl, rfl, rfl⟩, ⟨rfl, rfl, rfl, rfl, rfl, rfl, rfl, rfl⟩,
    ⟨rfl, rfl, rfl, rfl, rfl, rfl, rfl, rfl⟩, ⟨rfl, rfl, rfl, rfl, rfl, rfl, rfl, rfl⟩,
    ⟨rfl, rfl, rfl, rfl, rfl, rfl, rfl, rfl⟩, ⟨rfl, rfl, rfl, rfl, rfl, rfl, rfl, rfl⟩,
    ⟨rfl, rfl, rfl, rfl, rfl, rfl, rfl, rfl⟩⟩

end RustToast
